import Mathlib

/-!
Shallow embedding of a small Flask service that generates real-estate deal
memos, together with its three tool modules:

* `tools/validation_tools.py` — heuristic address validation;
* `tools/maps_tools.py` — geocoding wrapper around a remote HTTP API;
* `tools/bigquery_tools.py` — demographics and comparable-property queries;
* `main.py` — the HTTP endpoint orchestrating a generative model.

External effects (the HTTP geocoding call, warehouse queries, the model
invocation, request-body parsing) are modelled as explicit input values: an
outcome datatype enumerates the ways the external call can behave, and the
Python try/except structure is embedded via `Except`, where `Except.error`
stands for an exception propagating out of the guarded block.
-/

namespace CreMemo

/-! ## tools/validation_tools.py -/

/-- Result dictionary of `validate_address`: keys `valid` and `reason`. -/
structure ValidationResult where
  valid : Bool
  reason : String
deriving DecidableEq

/-- Embedding of `validate_address` from `tools/validation_tools.py`.
Python truthiness of a string (`if not address`) is emptiness. -/
def validate_address (address : String) : ValidationResult :=
  if address = "" then
    { valid := false, reason := "Address cannot be empty." }
  else if address.length < 10 then
    { valid := false, reason := "Address is too short to be valid." }
  else
    { valid := true, reason := "Address format appears valid." }

/-! ## tools/maps_tools.py -/

/-- One entry of the geocoder response field `address_components`. -/
structure AddressComponent where
  long_name : String
  short_name : String
  types : List String
deriving DecidableEq

/-- The `geometry.location` object; JSON numbers are embedded as rationals. -/
structure GeoLocation where
  lat : Rat
  lng : Rat
deriving DecidableEq

/-- One entry of the geocoder response field `results`. -/
structure GeoCandidate where
  location : GeoLocation
  place_id : String
  formatted_address : String
  address_components : List AddressComponent
deriving DecidableEq

/-- A well-formed parsed geocoder JSON envelope. A malformed envelope
(missing keys, non-JSON body) is covered by `RemoteOutcome.otherExn`,
standing for the exception the Python body would raise while decoding. -/
structure GeocodeResponse where
  status : String
  error_message : Option String
  results : List GeoCandidate
deriving DecidableEq

/-- How the remote interaction inside the `try` block of
`get_geocode_and_place_id` can behave: the request times out, the transport
or HTTP layer fails (`requests.get` / `raise_for_status`), some other
exception is raised (for example while decoding the body), or a well-formed
response arrives. -/
inductive RemoteOutcome where
  | timeout
  | requestError (msg : String)
  | otherExn (msg : String)
  | response (data : GeocodeResponse)
deriving DecidableEq

/-- Python exceptions that the `try` body of `get_geocode_and_place_id` can
raise, ordered as the `except` clauses match them. -/
inductive PyExn where
  | timeout
  | requestException (msg : String)
  | otherExn (msg : String)
deriving DecidableEq

/-- Return value of the geocoding tool: either the success dictionary or an
`\x7b"error": msg\x7d` dictionary. -/
inductive GeoReturn where
  | ok (latitude longitude : Rat) (place_id formatted_address : String)
      (city state zip_code : Option String)
  | err (msg : String)
deriving DecidableEq

/-- One iteration of the component-extraction loop: each of the three slots
is overwritten when the current component carries the matching type tag. -/
def componentStep (acc : Option String × Option String × Option String)
    (c : AddressComponent) : Option String × Option String × Option String :=
  (if c.types.contains "locality" then some c.long_name else acc.1,
   if c.types.contains "administrative_area_level_1" then some c.short_name else acc.2.1,
   if c.types.contains "postal_code" then some c.long_name else acc.2.2)

/-- The `for component in address_components` loop of
`get_geocode_and_place_id`, extracting (city, state, zip_code). -/
def extractCSZ (comps : List AddressComponent) :
    Option String × Option String × Option String :=
  comps.foldl componentStep (none, none, none)

/-- Error message of the non-OK / empty-results branch. -/
def geocodeNotOkMsg (address status : String) : String :=
  "Could not geocode address: " ++ address ++ ". Status: " ++ status ++ "."

/-- The `try` body of `get_geocode_and_place_id`: it either returns a
dictionary (`Except.ok`) or raises (`Except.error`). -/
def geocodeTryBody (address : String) (outcome : RemoteOutcome) :
    Except PyExn GeoReturn :=
  match outcome with
  | .timeout => .error .timeout
  | .requestError m => .error (.requestException m)
  | .otherExn m => .error (.otherExn m)
  | .response data =>
    match data.results with
    | r :: _ =>
      if data.status = "OK" then
        let csz := extractCSZ r.address_components
        .ok (.ok r.location.lat r.location.lng r.place_id r.formatted_address
          csz.1 csz.2.1 csz.2.2)
      else
        .ok (.err (geocodeNotOkMsg address data.status))
    | [] => .ok (.err (geocodeNotOkMsg address data.status))

/-- The three `except` clauses of `get_geocode_and_place_id`, as a partial
handler: `some` is the dictionary the clause returns. -/
def geocodeExceptClauses (address : String) : PyExn → Option GeoReturn
  | .timeout =>
    some (.err ("Geocoding API request timed out for address: " ++ address ++ "."))
  | .requestException m =>
    some (.err ("Geocoding API request failed: " ++ m ++ "."))
  | .otherExn m =>
    some (.err ("An unexpected error occurred during geocoding: " ++ m ++ "."))

/-- Embedding of `get_geocode_and_place_id` from `tools/maps_tools.py`.
`apiKey` is the `MAPS_API_KEY` environment variable (`none` when unset).
The result is `Except.error e` exactly when an exception `e` would escape
to the caller. -/
def get_geocode_and_place_id (apiKey : Option String) (address : String)
    (outcome : RemoteOutcome) : Except PyExn GeoReturn :=
  match apiKey with
  | none => .ok (.err "MAPS_API_KEY environment variable not set.")
  | some _ =>
    match geocodeTryBody address outcome with
    | .ok r => .ok r
    | .error e =>
      match geocodeExceptClauses address e with
      | some r => .ok r
      | none => .error e

/-- The failure modes enumerated for the geocoding tool: missing credential,
timeout, transport failure, other exception, non-OK remote status, or an
empty remote result list. -/
def geoFailureMode (apiKey : Option String) (outcome : RemoteOutcome) : Bool :=
  apiKey.isNone ||
    match outcome with
    | .timeout => true
    | .requestError _ => true
    | .otherExn _ => true
    | .response data => decide (data.status ≠ "OK") || data.results.isEmpty

/-- Value of the last component in list order whose `types` contain `tag`,
projected through `f`; `none` when no component matches. -/
def lastTagged (tag : String) (f : AddressComponent → String) :
    List AddressComponent → Option String
  | [] => none
  | c :: rest =>
    match lastTagged tag f rest with
    | some v => some v
    | none => if c.types.contains tag then some (f c) else none

/-- First operand if set, otherwise the fallback. -/
def orDefault (r dflt : Option String) : Option String :=
  match r with
  | some v => some v
  | none => dflt

/-! ## tools/bigquery_tools.py -/

/-- Outcome of running a warehouse query through `client.query`: either the
query executes over the current table contents, or it raises and the
`except Exception` clause sees the message. -/
inductive QueryOutcome (α : Type) where
  | success (table : List α)
  | failure (msg : String)
deriving DecidableEq

/-- Whether the query raised. -/
def QueryOutcome.isFailure : QueryOutcome α → Bool
  | .failure _ => true
  | .success _ => false

/-- One row of the public ACS table
`bigquery-public-data.census_bureau_acs.zip_code_2020_5yr`, restricted to
the columns the demographics query touches. Numeric columns are embedded as
exact numbers. -/
structure AcsRow where
  geo_id : String
  total_pop : Int
  median_income : Rat
  households : Int
  median_rent : Rat
deriving DecidableEq

/-- The aggregate row produced by the demographics query. -/
structure DemographicsRow where
  total_population_2020 : Int
  median_household_income_2020 : Rat
  total_households_2020 : Int
  median_rent_2020 : Rat
deriving DecidableEq

/-- Return value of `get_demographics_by_zip`: an error dictionary, the
`\x7b"demographics": "No data found ..."\x7d` marker, or
`\x7b"demographics": row\x7d`. -/
inductive DemReturn where
  | error (msg : String)
  | noData (msg : String)
  | demographics (row : DemographicsRow)
deriving DecidableEq

/-- Whether a demographics return value is an error dictionary. -/
def DemReturn.isError : DemReturn → Bool
  | .error _ => true
  | .noData _ => false
  | .demographics _ => false

/-- SUM / AVG aggregation of the selected ACS columns over a row group. -/
def acsAggregate (rows : List AcsRow) : DemographicsRow :=
  { total_population_2020 := (rows.map (fun r => r.total_pop)).sum,
    median_household_income_2020 :=
      (rows.map (fun r => r.median_income)).sum / (rows.length : Rat),
    total_households_2020 := (rows.map (fun r => r.households)).sum,
    median_rent_2020 :=
      (rows.map (fun r => r.median_rent)).sum / (rows.length : Rat) }

/-- Rows produced by the demographics SQL statement: `WHERE geo_id = zip
GROUP BY geo_id` yields one aggregate row when any row matches and none
otherwise. -/
def demographicsQueryRows (table : List AcsRow) (zip : String) :
    List DemographicsRow :=
  let matching := table.filter (fun r => r.geo_id = zip)
  if matching.isEmpty then [] else [acsAggregate matching]

/-- Embedding of `get_demographics_by_zip` from `tools/bigquery_tools.py`. -/
def get_demographics_by_zip (zip : String) (outcome : QueryOutcome AcsRow) :
    DemReturn :=
  if zip = "" then
    .error "Zip code is required for demographic query."
  else
    match outcome with
    | .failure m => .error ("BigQuery demographic query failed: " ++ m ++ ".")
    | .success table =>
      match demographicsQueryRows table zip with
      | row :: _ => .demographics row
      | [] => .noData "No data found for this zip code in public datasets."

/-- One row of the custom table `cre_data.commercial_comparables`. -/
structure CompRow where
  property_type : String
  price : Rat
  beds : Int
  baths : Rat
  sqft : Rat
  address : String
  city : String
  state : String
  zip_code : String
  year_built : Int
deriving DecidableEq

/-- Return value of `find_comparable_properties_in_bq`: an error
dictionary, the no-comparables marker, or the row list under key
`comparable_properties`. -/
inductive CompReturn where
  | error (msg : String)
  | noComparables (msg : String)
  | comparable_properties (rows : List CompRow)
deriving DecidableEq

/-- SQL `LOWER`, embedded as character-wise ASCII lowercasing. -/
def lowerStr (s : String) : String :=
  ⟨s.data.map Char.toLower⟩

/-- WHERE clause of the comparables query. `property_type` participates
only when truthy in Python (neither `None` nor the empty string);
`min_sqft` and `max_price` participate whenever they are not `None`. -/
def compRowMatches (city state : String) (property_type : Option String)
    (min_sqft max_price : Option Rat) (r : CompRow) : Bool :=
  lowerStr r.city = lowerStr city && lowerStr r.state = lowerStr state &&
    (match property_type with
     | none => true
     | some t => if t = "" then true else lowerStr r.property_type = lowerStr t) &&
    (match min_sqft with
     | none => true
     | some m => decide (m ≤ r.sqft)) &&
    (match max_price with
     | none => true
     | some m => decide (r.price ≤ m))

/-- Descending-price comparison used to embed `ORDER BY price DESC`. -/
def priceDescRel (a b : CompRow) : Prop := b.price ≤ a.price

instance : DecidableRel priceDescRel :=
  fun a b => inferInstanceAs (Decidable (b.price ≤ a.price))

instance : IsTotal CompRow priceDescRel :=
  ⟨fun a b => le_total b.price a.price⟩

instance : IsTrans CompRow priceDescRel :=
  ⟨fun _ _ _ hab hbc => le_trans hbc hab⟩

/-- Rows produced by the comparables SQL statement: filter, sort by price
descending (ties in an unspecified order, embedded here by insertion sort),
then `LIMIT`. -/
def comparablesQueryRows (table : List CompRow) (city state : String)
    (property_type : Option String) (min_sqft max_price : Option Rat)
    (limit : Nat) : List CompRow :=
  (List.insertionSort priceDescRel
    (table.filter (compRowMatches city state property_type min_sqft max_price))).take limit

/-- Embedding of `find_comparable_properties_in_bq` from
`tools/bigquery_tools.py`. The boolean records whether the function reached
`client.query`, so that the guard clause is visibly query-free. -/
def find_comparable_properties_in_bq (city state : String)
    (property_type : Option String) (min_sqft max_price : Option Rat)
    (limit : Nat) (outcome : QueryOutcome CompRow) : CompReturn × Bool :=
  if city = "" ∨ state = "" then
    (.error "City and State are required to find comparables.", false)
  else
    match outcome with
    | .failure m =>
      (.error ("BigQuery comparables query failed: " ++ m ++ "."), true)
    | .success table =>
      let results :=
        comparablesQueryRows table city state property_type min_sqft max_price limit
      if results.isEmpty then
        (.noComparables "No comparable properties found for the given criteria.", true)
      else
        (.comparable_properties results, true)

/-! ## main.py -/

/-- Parsed JSON values, as produced by `request.get_json`. Objects keep
their key/value pairs in document order; numbers are embedded as integers
(the claims only involve integral payloads). -/
inductive Json where
  | null
  | bool (b : Bool)
  | num (n : Int)
  | str (s : String)
  | arr (elems : List Json)
  | obj (fields : List (String × Json))

/-- Python truthiness of a parsed JSON value. -/
def pyTruthy : Json → Bool
  | .null => false
  | .bool b => b
  | .num n => decide (n ≠ 0)
  | .str s => decide (s ≠ "")
  | .arr l => !l.isEmpty
  | .obj f => !f.isEmpty

/-- Name of the Python type a parsed JSON value decodes to. -/
def pyTypeName : Json → String
  | .null => "NoneType"
  | .bool _ => "bool"
  | .num _ => "int"
  | .str _ => "str"
  | .arr _ => "list"
  | .obj _ => "dict"

/-- Whether the value decoded to a Python dict. -/
def Json.isObj : Json → Bool
  | .obj _ => true
  | _ => false

/-- Whether the value decoded to a Python str. -/
def Json.isStr : Json → Bool
  | .str _ => true
  | _ => false

/-- Message of the `AttributeError` raised by `value.get("address")` when
the parsed body is not a dict. -/
def attrGetErrMsg (j : Json) : String :=
  "\x27" ++ pyTypeName j ++ "\x27 object has no attribute \x27get\x27"

/-- Embedding of `dict.get` on a parsed JSON object; on duplicate keys the
later pair wins, as in `json.loads`. -/
def jsonObjGet : List (String × Json) → String → Option Json
  | [], _ => none
  | (k, v) :: rest, key =>
    match jsonObjGet rest key with
    | some r => some r
    | none => if k = key then some v else none

/-- One part of the model response content: a text segment or a pending
function call. -/
inductive MemoPart where
  | text (s : String)
  | functionCall (name : String)

/-- One response candidate; `content` is `none` when the candidate carries
no (truthy) content object. -/
structure Candidate where
  content : Option (List MemoPart)

/-- The generative-model response consumed by the endpoint. -/
structure ModelResponse where
  candidates : List Candidate

/-- The warning marker appended when the final response still asks for a
tool call. -/
def warningMarker (name : String) : String :=
  "\n\n**[Warning: Agent attempted to call a tool in final response unexpectedly: "
    ++ name ++ "]**\n\n"

/-- Contribution of one part to `generated_memo`. -/
def partText : MemoPart → String
  | .text s => s
  | .functionCall name => warningMarker name

/-- The memo-extraction loop of `analyze_property`: concatenates the part
contributions of the first candidate, when present. -/
def buildMemo (resp : ModelResponse) : String :=
  match resp.candidates with
  | [] => ""
  | cand :: _ =>
    match cand.content with
    | none => ""
    | some parts => parts.foldl (fun acc p => acc ++ partText p) ""

/-- Concatenation of only the text segments of the response (the parts that
are not function calls), scanning the same first candidate the endpoint
reads. This is the quantity the specification's emptiness test speaks
about, stated here for comparison with `buildMemo`. -/
def concatTextParts (resp : ModelResponse) : String :=
  match resp.candidates with
  | [] => ""
  | cand :: _ =>
    match cand.content with
    | none => ""
    | some parts =>
      parts.foldl
        (fun acc p => match p with | .text s => acc ++ s | .functionCall _ => acc) ""

/-- Python `str.isspace`-style whitespace, the characters `strip` removes. -/
def pyIsSpace (c : Char) : Bool :=
  c = ' ' || c = '\t' || c = '\n' || c = '\r' || c = '\x0b' || c = '\x0c'

/-- Python `not s.strip()`: the string is empty or whitespace-only. -/
def pyBlank (s : String) : Bool :=
  s.data.all pyIsSpace

/-- Response body: an error dictionary or a deal-memo dictionary. -/
inductive RespBody where
  | error (msg : String)
  | deal_memo (memo : String)
deriving DecidableEq

/-- An HTTP response: status code and JSON body. -/
structure HttpResp where
  status : Nat
  body : RespBody
deriving DecidableEq

/-- Message of the 400 response for an absent or unparseable or falsy
body. -/
def invalidJsonMsg : String := "Invalid JSON payload or empty request body."

/-- Message of the 400 response for a missing or falsy `address`. -/
def missingAddressMsg : String := "Missing \x27address\x27 in request payload."

/-- Message of the 500 response for a blank generated memo. -/
def emptyMemoMsg : String :=
  "Agent failed to generate a comprehensive memo. Gemini\x27s output was empty."

/-- Exceptions the `try` body of `analyze_property` can raise in the
modelled fragment: the `AttributeError` from calling `.get` on a non-dict
body, or an exception propagating out of `model.generate_content`. -/
inductive MainExn where
  | attrError (msg : String)
  | modelExn (msg : String)

/-- Python `str(e)` for the modelled exceptions. -/
def mainExnStr : MainExn → String
  | .attrError m => m
  | .modelExn m => m

/-- The `try` body of `analyze_property`. `body` is the value of
`request.get_json(silent=True)` (`none` when the body is absent or
unparseable); `gen` is the outcome of `model.generate_content`. -/
def analyzeTryBody (body : Option Json) (gen : Except String ModelResponse) :
    Except MainExn HttpResp :=
  match body with
  | none => .ok ⟨400, .error invalidJsonMsg⟩
  | some data =>
    if pyTruthy data = false then
      .ok ⟨400, .error invalidJsonMsg⟩
    else
      match data with
      | .obj fields =>
        match jsonObjGet fields "address" with
        | none => .ok ⟨400, .error missingAddressMsg⟩
        | some v =>
          if pyTruthy v = false then
            .ok ⟨400, .error missingAddressMsg⟩
          else
            match gen with
            | .error m => .error (.modelExn m)
            | .ok resp =>
              let memo := buildMemo resp
              if pyBlank memo then
                .ok ⟨500, .error emptyMemoMsg⟩
              else
                .ok ⟨200, .deal_memo memo⟩
      | notDict => .error (.attrError (attrGetErrMsg notDict))

/-- Embedding of the `analyze_property` endpoint of `main.py`: the guarded
body wrapped in the catch-all `except Exception` clause, which produces a
500 response carrying `str(e)`. -/
def analyze_property (body : Option Json) (gen : Except String ModelResponse) :
    HttpResp :=
  match analyzeTryBody body gen with
  | .ok r => r
  | .error e => ⟨500, .error (mainExnStr e)⟩

/-- A model response whose only part is a pending function call. -/
def fcOnlyResp : ModelResponse :=
  { candidates := [{ content := some [MemoPart.functionCall "get_geocode_and_place_id"] }] }

/-- A model response with no candidates at all. -/
def emptyResp : ModelResponse := { candidates := [] }

/-- A request body carrying a plausible address string. -/
def goodBody : Json :=
  Json.obj [("address", Json.str "1 Infinite Loop, Cupertino, CA 95014")]

/-! ## Theorems -/

/-- C2: `validate_address` returns valid=false together with a non-empty
reason exactly for addresses of length below 10 (the empty address has
length 0), and valid=true for every address of length 10 or more; there is
no upper bound or content check. -/
theorem validate_address_policy (address : String) :
    ((validate_address address).valid = true ↔ 10 ≤ address.length) ∧
    (validate_address address).reason ≠ "" := by
  unfold validate_address
  by_cases h0 : address = ""
  · subst h0
    rw [if_pos rfl]
    refine ⟨?_, by decide⟩
    simp
  · rw [if_neg h0]
    by_cases hl : address.length < 10
    · rw [if_pos hl]
      refine ⟨?_, by decide⟩
      simp only [Bool.false_eq_true, false_iff]
      omega
    · rw [if_neg hl]
      refine ⟨?_, by decide⟩
      simp only [true_iff]
      omega

/-- C6: when city or state is empty, `find_comparable_properties_in_bq`
returns the fixed error payload and never reaches the query (the issued
flag is false and the result is independent of the query outcome). -/
theorem comparables_requires_city_and_state (city state : String)
    (property_type : Option String) (min_sqft max_price : Option Rat)
    (limit : Nat) (outcome : QueryOutcome CompRow)
    (h : city = "" ∨ state = "") :
    find_comparable_properties_in_bq city state property_type min_sqft max_price
        limit outcome =
      (CompReturn.error "City and State are required to find comparables.", false) := by
  unfold find_comparable_properties_in_bq
  rw [if_pos h]

/-- C6 witness: empty city with concrete remaining arguments. -/
theorem comparables_requires_city_and_state_witness :
    ("" = "" ∨ "TX" = "") ∧
    find_comparable_properties_in_bq "" "TX" none none none 5
        (QueryOutcome.success []) =
      (CompReturn.error "City and State are required to find comparables.", false) :=
  ⟨Or.inl rfl,
   comparables_requires_city_and_state "" "TX" none none none 5
     (QueryOutcome.success []) (Or.inl rfl)⟩

/-- C5: `get_demographics_by_zip` returns an error payload exactly when the
zip is empty or the query raises; when the query succeeds with zero rows
matching a non-empty zip, it returns the explicit no-data marker, a value
distinct from every error payload by construction. -/
theorem demographics_error_iff_and_nodata (zip : String)
    (outcome : QueryOutcome AcsRow) :
    ((get_demographics_by_zip zip outcome).isError = true ↔
      (zip = "" ∨ outcome.isFailure = true)) ∧
    (∀ table, outcome = QueryOutcome.success table → zip ≠ "" →
      table.filter (fun r => r.geo_id = zip) = [] →
      get_demographics_by_zip zip outcome =
        DemReturn.noData "No data found for this zip code in public datasets.") := by
  constructor
  · by_cases h0 : zip = ""
    · simp [get_demographics_by_zip, h0, DemReturn.isError]
    · cases outcome with
      | failure m =>
        simp [get_demographics_by_zip, h0, DemReturn.isError, QueryOutcome.isFailure]
      | success table =>
        rw [get_demographics_by_zip, if_neg h0]
        cases hq : demographicsQueryRows table zip with
        | nil => simp [h0, DemReturn.isError, QueryOutcome.isFailure]
        | cons row rest => simp [h0, DemReturn.isError, QueryOutcome.isFailure]
  · intro table heq hz hfilter
    subst heq
    rw [get_demographics_by_zip, if_neg hz]
    simp [demographicsQueryRows, hfilter]

/-- C5 witness: zip 00000 against an empty table. -/
theorem demographics_error_iff_and_nodata_witness :
    (QueryOutcome.success ([] : List AcsRow) = QueryOutcome.success [] ∧
      "00000" ≠ "" ∧ ([] : List AcsRow).filter (fun r => r.geo_id = "00000") = []) ∧
    get_demographics_by_zip "00000" (QueryOutcome.success []) =
      DemReturn.noData "No data found for this zip code in public datasets." :=
  ⟨⟨rfl, by decide, rfl⟩,
   (demographics_error_iff_and_nodata "00000" (QueryOutcome.success [])).2 [] rfl
     (by decide) rfl⟩

/-- C1 counterexample: a body parsing to the empty JSON object is falsy in
Python, so the endpoint answers with the invalid-JSON message, not the
missing-address message. -/
theorem post_empty_object_gets_invalid_json_msg :
    analyze_property (some (Json.obj [])) (Except.ok emptyResp) =
      ⟨400, RespBody.error invalidJsonMsg⟩ ∧
    analyze_property (some (Json.obj [])) (Except.ok emptyResp) ≠
      ⟨400, RespBody.error missingAddressMsg⟩ :=
  ⟨rfl, by decide⟩

/-- C1 amended: for a POST body parsing to the empty JSON object, the
endpoint responds 400 with the invalid-JSON/empty-body message (the empty
dict fails the truthiness test on the parsed payload), whatever the model
outcome would have been. -/
theorem post_empty_object_invalid_json (gen : Except String ModelResponse) :
    analyze_property (some (Json.obj [])) gen =
      ⟨400, RespBody.error invalidJsonMsg⟩ := rfl

/-- C9: a body parsing to a truthy non-object value makes `data.get` raise
`AttributeError`, which the catch-all handler converts into a 500 response
carrying the exception message. -/
theorem truthy_nonobject_body_500 (j : Json) (gen : Except String ModelResponse)
    (ht : pyTruthy j = true) (ho : j.isObj = false) :
    analyze_property (some j) gen = ⟨500, RespBody.error (attrGetErrMsg j)⟩ := by
  cases j with
  | null => exact Bool.noConfusion ht
  | bool b =>
    cases b with
    | false => exact Bool.noConfusion ht
    | true => rfl
  | num n => simp [analyze_property, analyzeTryBody, ht, mainExnStr]
  | str s => simp [analyze_property, analyzeTryBody, ht, mainExnStr]
  | arr l => simp [analyze_property, analyzeTryBody, ht, mainExnStr]
  | obj fields => exact Bool.noConfusion ho

/-- C9 witness: the body parses to the non-empty array [1]. -/
theorem truthy_nonobject_body_500_witness :
    (pyTruthy (Json.arr [Json.num 1]) = true ∧
      (Json.arr [Json.num 1]).isObj = false) ∧
    analyze_property (some (Json.arr [Json.num 1])) (Except.ok emptyResp) =
      ⟨500, RespBody.error (attrGetErrMsg (Json.arr [Json.num 1]))⟩ :=
  ⟨⟨rfl, rfl⟩,
   truthy_nonobject_body_500 (Json.arr [Json.num 1]) (Except.ok emptyResp) rfl rfl⟩

/-- C10: a body parsing to a JSON object whose address key holds a falsy
non-string value yields the 400 missing-address response, exactly as when
the key is absent. -/
theorem falsy_address_value_400 (fields : List (String × Json)) (v : Json)
    (gen : Except String ModelResponse)
    (hget : jsonObjGet fields "address" = some v)
    (hfalsy : pyTruthy v = false) (_hnotstr : v.isStr = false) :
    analyze_property (some (Json.obj fields)) gen =
      ⟨400, RespBody.error missingAddressMsg⟩ := by
  cases fields with
  | nil => simp [jsonObjGet] at hget
  | cons f rest =>
    have hobj : pyTruthy (Json.obj (f :: rest)) = true := rfl
    simp [analyze_property, analyzeTryBody, hobj, hget, hfalsy]

/-- C10 witness: the body is the object mapping address to the number 0. -/
theorem falsy_address_value_400_witness :
    (jsonObjGet [("address", Json.num 0)] "address" = some (Json.num 0) ∧
      pyTruthy (Json.num 0) = false ∧ (Json.num 0).isStr = false) ∧
    analyze_property (some (Json.obj [("address", Json.num 0)])) (Except.ok emptyResp) =
      ⟨400, RespBody.error missingAddressMsg⟩ :=
  ⟨⟨rfl, rfl, rfl⟩,
   falsy_address_value_400 [("address", Json.num 0)] (Json.num 0)
     (Except.ok emptyResp) rfl rfl rfl⟩

/-- C7 counterexample: a response whose only part is a pending function
call has empty concatenated text segments, yet the endpoint answers 200,
because the appended warning marker makes the assembled memo
non-whitespace. -/
theorem blank_text_segments_but_200 :
    pyBlank (concatTextParts fcOnlyResp) = true ∧
    (analyze_property (some goodBody) (Except.ok fcOnlyResp)).status = 200 :=
  ⟨rfl, rfl⟩

/-- C7 amended: the emptiness test guarding the 500 response applies to the
assembled memo output, that is, the text segments concatenated together
with a warning marker for every function-call part (and empty when there
are no candidates or no content); the endpoint responds 500 with the fixed
message exactly when that assembled output is empty or whitespace-only,
and 200 with it as deal_memo otherwise. -/
theorem memo_blank_test_on_assembled_output (resp : ModelResponse) :
    analyze_property (some goodBody) (Except.ok resp) =
      if pyBlank (buildMemo resp) = true then ⟨500, RespBody.error emptyMemoMsg⟩
      else ⟨200, RespBody.deal_memo (buildMemo resp)⟩ := by
  have hb1 :
      pyTruthy (Json.obj [("address", Json.str "1 Infinite Loop, Cupertino, CA 95014")]) =
        true := rfl
  have hb2 : pyTruthy (Json.str "1 Infinite Loop, Cupertino, CA 95014") = true := rfl
  cases h : pyBlank (buildMemo resp) with
  | true =>
    rw [if_pos rfl]
    simp [analyze_property, analyzeTryBody, goodBody, jsonObjGet, h, hb1, hb2]
  | false =>
    rw [if_neg (by simp)]
    simp [analyze_property, analyzeTryBody, goodBody, jsonObjGet, h, hb1, hb2]

/-- C3: `get_geocode_and_place_id` never lets an exception escape (its
result is always `Except.ok`), and in every enumerated failure mode —
missing credential, timeout, transport failure, other exception, non-OK
remote status, empty remote result list — the returned dictionary is an
error payload. -/
theorem geocode_never_raises (apiKey : Option String) (address : String)
    (outcome : RemoteOutcome) :
    (∃ r, get_geocode_and_place_id apiKey address outcome = Except.ok r) ∧
    (geoFailureMode apiKey outcome = true →
      ∃ m, get_geocode_and_place_id apiKey address outcome =
        Except.ok (GeoReturn.err m)) := by
  cases apiKey with
  | none => exact ⟨⟨_, rfl⟩, fun _ => ⟨_, rfl⟩⟩
  | some k =>
    cases outcome with
    | timeout => exact ⟨⟨_, rfl⟩, fun _ => ⟨_, rfl⟩⟩
    | requestError m => exact ⟨⟨_, rfl⟩, fun _ => ⟨_, rfl⟩⟩
    | otherExn m => exact ⟨⟨_, rfl⟩, fun _ => ⟨_, rfl⟩⟩
    | response data =>
      cases hr : data.results with
      | nil =>
        have hv : get_geocode_and_place_id (some k) address (.response data) =
            Except.ok (GeoReturn.err (geocodeNotOkMsg address data.status)) := by
          simp [get_geocode_and_place_id, geocodeTryBody, hr]
        exact ⟨⟨_, hv⟩, fun _ => ⟨_, hv⟩⟩
      | cons r rest =>
        by_cases hs : data.status = "OK"
        · have hv : get_geocode_and_place_id (some k) address (.response data) =
              Except.ok (GeoReturn.ok r.location.lat r.location.lng r.place_id
                r.formatted_address (extractCSZ r.address_components).1
                (extractCSZ r.address_components).2.1
                (extractCSZ r.address_components).2.2) := by
            simp [get_geocode_and_place_id, geocodeTryBody, hr, hs]
          refine ⟨⟨_, hv⟩, fun hf => absurd hf ?_⟩
          simp [geoFailureMode, hr, hs]
        · have hv : get_geocode_and_place_id (some k) address (.response data) =
              Except.ok (GeoReturn.err (geocodeNotOkMsg address data.status)) := by
            simp [get_geocode_and_place_id, geocodeTryBody, hr, hs]
          exact ⟨⟨_, hv⟩, fun _ => ⟨_, hv⟩⟩

/-- C3 witness: missing credential together with a timed-out request. -/
theorem geocode_never_raises_witness :
    geoFailureMode none RemoteOutcome.timeout = true ∧
    ∃ m, get_geocode_and_place_id none "120 Main Street, Springfield"
        RemoteOutcome.timeout = Except.ok (GeoReturn.err m) :=
  ⟨rfl,
   (geocode_never_raises none "120 Main Street, Springfield"
     RemoteOutcome.timeout).2 rfl⟩

/-- C4: with non-empty city and state, no optional filters and limit 5, a
successful comparables query returns either the no-comparables marker (when
no row matches) or a row list of length at most 5 that is sorted by
descending price. -/
theorem comparables_default_limit_sorted (table : List CompRow)
    (city state : String) (hc : city ≠ "") (hs : state ≠ "") :
    (find_comparable_properties_in_bq city state none none none 5
        (QueryOutcome.success table)).1 =
      CompReturn.noComparables "No comparable properties found for the given criteria." ∨
    ∃ rows : List CompRow,
      (find_comparable_properties_in_bq city state none none none 5
          (QueryOutcome.success table)).1 = CompReturn.comparable_properties rows ∧
      rows.length ≤ 5 ∧ List.Sorted priceDescRel rows := by
  have hcond : ¬(city = "" ∨ state = "") := by
    rintro (h | h)
    · exact hc h
    · exact hs h
  unfold find_comparable_properties_in_bq
  rw [if_neg hcond]
  by_cases hemp :
      (comparablesQueryRows table city state none none none 5).isEmpty = true
  · left
    simp only [hemp, if_pos]
  · right
    refine ⟨comparablesQueryRows table city state none none none 5, ?_, ?_, ?_⟩
    · simp only [hemp, Bool.false_eq_true, if_false]
    · unfold comparablesQueryRows
      rw [List.length_take]
      exact Nat.min_le_left 5 _
    · unfold comparablesQueryRows
      exact List.Pairwise.sublist (List.take_sublist 5 _)
        (List.sorted_insertionSort priceDescRel _)

/-- C4 witness: a concrete two-row table in one city. -/
theorem comparables_default_limit_sorted_witness :
    ("Austin" ≠ "" ∧ "TX" ≠ "") ∧
    ((find_comparable_properties_in_bq "Austin" "TX" none none none 5
        (QueryOutcome.success [])).1 =
      CompReturn.noComparables "No comparable properties found for the given criteria." ∨
    ∃ rows : List CompRow,
      (find_comparable_properties_in_bq "Austin" "TX" none none none 5
          (QueryOutcome.success [])).1 = CompReturn.comparable_properties rows ∧
      rows.length ≤ 5 ∧ List.Sorted priceDescRel rows) :=
  ⟨⟨by decide, by decide⟩,
   comparables_default_limit_sorted [] "Austin" "TX" (by decide) (by decide)⟩

/-- Helper: `orDefault` is associative. -/
theorem orDefault_assoc (r v d : Option String) :
    orDefault (orDefault r v) d = orDefault r (orDefault v d) := by
  cases r <;> cases v <;> rfl

/-- Helper: `none` is a right identity of `orDefault`. -/
theorem orDefault_none (r : Option String) : orDefault r none = r := by
  cases r <;> rfl

/-- Helper: `orDefault` of a conditional `some`. -/
theorem orDefault_if (c : Bool) (s : String) (a : Option String) :
    orDefault (if c then some s else none) a = if c then some s else a := by
  cases c <;> rfl

/-- Helper: unfolding `lastTagged` on a cons cell through `orDefault`. -/
theorem lastTagged_cons (tag : String) (f : AddressComponent → String)
    (x : AddressComponent) (rest : List AddressComponent) :
    lastTagged tag f (x :: rest) =
      orDefault (lastTagged tag f rest)
        (if x.types.contains tag then some (f x) else none) := by
  cases h : lastTagged tag f rest <;> simp [lastTagged, h, orDefault]

/-- Helper: the extraction fold computes, slot by slot, the last matching
component over any initial accumulator. -/
theorem extract_foldl_general (comps : List AddressComponent)
    (a b c : Option String) :
    comps.foldl componentStep (a, b, c) =
      (orDefault (lastTagged "locality" (fun x => x.long_name) comps) a,
       orDefault (lastTagged "administrative_area_level_1"
         (fun x => x.short_name) comps) b,
       orDefault (lastTagged "postal_code" (fun x => x.long_name) comps) c) := by
  induction comps generalizing a b c with
  | nil => rfl
  | cons x rest ih =>
    rw [List.foldl_cons]
    rw [show componentStep (a, b, c) x =
      (if x.types.contains "locality" then some x.long_name else a,
       if x.types.contains "administrative_area_level_1" then some x.short_name else b,
       if x.types.contains "postal_code" then some x.long_name else c) from rfl]
    rw [ih]
    rw [lastTagged_cons, lastTagged_cons, lastTagged_cons]
    rw [orDefault_assoc, orDefault_assoc, orDefault_assoc]
    rw [orDefault_if, orDefault_if, orDefault_if]

/-- C8: the component-extraction loop keeps, for each of the three type
tags, the last matching component in list order; the city and zip slots
read `long_name` while the state slot reads `short_name`. -/
theorem components_last_match_wins (comps : List AddressComponent) :
    extractCSZ comps =
      (lastTagged "locality" (fun x => x.long_name) comps,
       lastTagged "administrative_area_level_1" (fun x => x.short_name) comps,
       lastTagged "postal_code" (fun x => x.long_name) comps) := by
  unfold extractCSZ
  rw [extract_foldl_general, orDefault_none, orDefault_none, orDefault_none]

end CreMemo
